import Mathlib

/-
Shallow embedding of ha-mi_aircondition (src/ac_m1.py and src/climate.py),
the Xiaomi M1 air-conditioner climate plugin.  Python scalar values are
modelled by `PyVal` (numbers as exact rationals), Python exceptions by
`PyErr`, and one RPC `send` to the device by `Cmd`.  Entity coroutines are
modelled as state-transformers that also return the list of commands sent
to the device and the exception, if any, that escaped the coroutine;
mutations performed before an uncaught exception persist, as in Python.
-/

namespace MiAC

/-- Python exception classes that the embedded code can raise.
`airConditionException` (climate.py line 111) is a subclass of the miio
library `DeviceException`; the others are builtin Python exceptions. -/
inductive PyErr where
  | nameError
  | valueError
  | typeError
  | keyError
  | attributeError
  | deviceException
  | airConditionException
  deriving DecidableEq

/-- Whether an exception is (a subclass of) miio DeviceException, hence
caught by `except DeviceException` clauses. -/
def PyErr.isDeviceException : PyErr → Bool
  | .deviceException => true
  | .airConditionException => true
  | _ => false

/-- A Python scalar value as it occurs in the plugin: None, a string, a
number (modelled as an exact rational), a bool, or an OperationMode enum
member (assigned to `_hvac_mode` by `async_set_temperature`).  Python `==`
between values of different kinds is False, matching `DecidableEq`. -/
inductive PyVal where
  | none
  | str (s : String)
  | num (q : ℚ)
  | bool (b : Bool)
  | opCool
  | opDry
  | opFanOnly
  | opHeat
  deriving DecidableEq

/-- The parameter payload of one device `send`: a bare string, a list of
integers, or a list of strings. -/
inductive Param where
  | str (s : String)
  | ints (l : List Int)
  | strs (l : List String)
  deriving DecidableEq

/-- One RPC call `self.send(method, param)` issued to the device. -/
structure Cmd where
  method : String
  param : Param
  deriving DecidableEq

/-- Python `int()` truncation of a rational towards zero. -/
def pyInt (q : ℚ) : Int :=
  if 0 ≤ q then Int.floor q else Int.ceil q

/-- Character-level recursion behind Python `str.title()`: a letter is
uppercased when the previous character was not a letter, lowercased
otherwise (ASCII fragment, which covers every string the plugin titles). -/
def titleChars : Bool → List Char → List Char
  | _, [] => []
  | prev, c :: cs =>
    if c.isAlpha then
      (if prev then c.toLower else c.toUpper) :: titleChars true cs
    else
      c :: titleChars false cs

/-- Python `s.title()`. -/
def pyTitle (s : String) : String :=
  String.mk (titleChars false s.data)

/-! Host-platform constants imported from homeassistant (values as in the
HA releases this plugin targets). -/

def HVAC_MODE_OFF : String := "off"
def HVAC_MODE_COOL : String := "cool"
def HVAC_MODE_DRY : String := "dry"
def HVAC_MODE_FAN_ONLY : String := "fan_only"
def HVAC_MODE_HEAT : String := "heat"

def SUPPORT_TARGET_TEMPERATURE : Nat := 1
def SUPPORT_FAN_MODE : Nat := 8
def SUPPORT_PRESET_MODE : Nat := 16
def SUPPORT_SWING_MODE : Nat := 32
def SUPPORT_AUX_HEAT : Nat := 64

/-- ac_m1.py line 25. -/
def SUCCESS : List PyVal := [.str "ok"]

/-- ac_m1.py lines 29-33: the SUPPORT_PRESET_MODE term is commented out in
the source, so it is absent from the bitmask. -/
def SUPPORT_FLAGS : Nat :=
  SUPPORT_TARGET_TEMPERATURE |||
  SUPPORT_FAN_MODE |||
  SUPPORT_AUX_HEAT |||
  SUPPORT_SWING_MODE

/-- Names bound at module level in ac_m1.py: the imports of lines 1-22 and
the module-level constants and classes.  `PRESET_COMFORT`, `PRESET_SLEEP`
and `AirConditionException` are referenced in the file but are NOT among
them (no import binds them and the module defines no such names), so
evaluating those names raises NameError. -/
def ac_m1_globals : List String :=
  ["enum", "asyncio", "logging", "defaultdict", "Optional", "click",
   "Device", "DeviceException", "command", "format_output", "EnumType",
   "List", "partial", "timedelta", "ClimateDevice", "PLATFORM_SCHEMA",
   "ATTR_HVAC_MODE", "DOMAIN", "HVAC_MODES", "HVAC_MODE_OFF",
   "HVAC_MODE_HEAT", "HVAC_MODE_COOL", "HVAC_MODE_AUTO", "HVAC_MODE_DRY",
   "HVAC_MODE_FAN_ONLY", "SUPPORT_SWING_MODE", "SUPPORT_FAN_MODE",
   "SUPPORT_TARGET_TEMPERATURE", "SUPPORT_PRESET_MODE", "SUPPORT_AUX_HEAT",
   "ATTR_ENTITY_ID", "ATTR_TEMPERATURE", "ATTR_UNIT_OF_MEASUREMENT",
   "CONF_NAME", "CONF_HOST", "CONF_TOKEN", "CONF_TIMEOUT", "TEMP_CELSIUS",
   "_LOGGER", "SUCCESS", "DEFAULT_NAME", "DATA_KEY", "SUPPORT_FLAGS",
   "ATTR_SWING_MODE", "ATTR_FAN_MODE", "ATTR_WIND_LEVEL", "HVACMode",
   "OperationMode", "FanSpeed", "SwingMode", "AirConditionStatus",
   "AirConditionM1", "XiaomiAirConditionM1"]

/-! The enums of ac_m1.py lines 40-68. -/

/-- ac_m1.py lines 40-45. -/
inductive HVACMode where
  | Off
  | Cool
  | Dry
  | Fan_Only
  | Heat
  deriving DecidableEq

def HVACMode.value : HVACMode → String
  | .Off => HVAC_MODE_OFF
  | .Cool => HVAC_MODE_COOL
  | .Dry => HVAC_MODE_DRY
  | .Fan_Only => HVAC_MODE_FAN_ONLY
  | .Heat => HVAC_MODE_HEAT

def HVACMode.name : HVACMode → String
  | .Off => "Off"
  | .Cool => "Cool"
  | .Dry => "Dry"
  | .Fan_Only => "Fan_Only"
  | .Heat => "Heat"

/-- Python `HVACMode(v)`: enum lookup by value, ValueError when no member
has that value. -/
def HVACMode.ofValue (v : String) : Except PyErr HVACMode :=
  if v = HVAC_MODE_OFF then .ok .Off
  else if v = HVAC_MODE_COOL then .ok .Cool
  else if v = HVAC_MODE_DRY then .ok .Dry
  else if v = HVAC_MODE_FAN_ONLY then .ok .Fan_Only
  else if v = HVAC_MODE_HEAT then .ok .Heat
  else .error .valueError

/-- Python `HVACMode[n]`: enum lookup by member name, KeyError on miss. -/
def HVACMode.ofName (n : String) : Except PyErr HVACMode :=
  if n = "Off" then .ok .Off
  else if n = "Cool" then .ok .Cool
  else if n = "Dry" then .ok .Dry
  else if n = "Fan_Only" then .ok .Fan_Only
  else if n = "Heat" then .ok .Heat
  else .error .keyError

/-- ac_m1.py lines 49-53; the Heat value is the string HVAC_MODE_HEAT. -/
inductive OperationMode where
  | Cool
  | Dry
  | Fan_Only
  | Heat
  deriving DecidableEq

def OperationMode.value : OperationMode → String
  | .Cool => "cooling"
  | .Dry => "arefaction"
  | .Fan_Only => "wind"
  | .Heat => HVAC_MODE_HEAT

def OperationMode.name : OperationMode → String
  | .Cool => "Cool"
  | .Dry => "Dry"
  | .Fan_Only => "Fan_Only"
  | .Heat => "Heat"

/-- Python `OperationMode(v)` on a scalar value: ValueError when no member
has that value (CPython enum raises ValueError, not TypeError, for every
hashable non-member value, so this never raises TypeError on the scalar
values a miio get_prop reply can contain). -/
def OperationMode.ofValue (v : PyVal) : Except PyErr OperationMode :=
  if v = .str "cooling" then .ok .Cool
  else if v = .str "arefaction" then .ok .Dry
  else if v = .str "wind" then .ok .Fan_Only
  else if v = .str HVAC_MODE_HEAT then .ok .Heat
  else .error .valueError

/-- Python `OperationMode[n]`: lookup by member name, KeyError on miss. -/
def OperationMode.ofName (n : String) : Except PyErr OperationMode :=
  if n = "Cool" then .ok .Cool
  else if n = "Dry" then .ok .Dry
  else if n = "Fan_Only" then .ok .Fan_Only
  else if n = "Heat" then .ok .Heat
  else .error .keyError

/-- The PyVal embedding of an OperationMode enum member, for the
assignment `self._hvac_mode = OperationMode(...)` in
async_set_temperature. -/
def OperationMode.toPyVal : OperationMode → PyVal
  | .Cool => .opCool
  | .Dry => .opDry
  | .Fan_Only => .opFanOnly
  | .Heat => .opHeat

/-- ac_m1.py lines 57-64. -/
inductive FanSpeed where
  | Level_1
  | Level_2
  | Level_3
  | Level_4
  | Level_5
  | Auto
  deriving DecidableEq

def FanSpeed.value : FanSpeed → Int
  | .Level_1 => 0
  | .Level_2 => 1
  | .Level_3 => 2
  | .Level_4 => 3
  | .Level_5 => 4
  | .Auto => 5

def FanSpeed.name : FanSpeed → String
  | .Level_1 => "Level_1"
  | .Level_2 => "Level_2"
  | .Level_3 => "Level_3"
  | .Level_4 => "Level_4"
  | .Level_5 => "Level_5"
  | .Auto => "Auto"

/-- Python `FanSpeed(v)`: lookup by value, ValueError on miss. -/
def FanSpeed.ofValue (v : PyVal) : Except PyErr FanSpeed :=
  if v = .num 0 then .ok .Level_1
  else if v = .num 1 then .ok .Level_2
  else if v = .num 2 then .ok .Level_3
  else if v = .num 3 then .ok .Level_4
  else if v = .num 4 then .ok .Level_5
  else if v = .num 5 then .ok .Auto
  else .error .valueError

/-- Python `FanSpeed[n]`: lookup by member name, KeyError on miss. -/
def FanSpeed.ofName (n : String) : Except PyErr FanSpeed :=
  if n = "Level_1" then .ok .Level_1
  else if n = "Level_2" then .ok .Level_2
  else if n = "Level_3" then .ok .Level_3
  else if n = "Level_4" then .ok .Level_4
  else if n = "Level_5" then .ok .Level_5
  else if n = "Auto" then .ok .Auto
  else .error .keyError

/-- ac_m1.py lines 66-68. -/
inductive SwingMode where
  | On
  | Off
  deriving DecidableEq

def SwingMode.value : SwingMode → String
  | .On => "on"
  | .Off => "off"

def SwingMode.name : SwingMode → String
  | .On => "On"
  | .Off => "Off"

/-- Python `SwingMode(v)`: lookup by value, ValueError on miss. -/
def SwingMode.ofValue (v : PyVal) : Except PyErr SwingMode :=
  if v = .str "on" then .ok .On
  else if v = .str "off" then .ok .Off
  else .error .valueError

/-! The device class AirConditionM1 (ac_m1.py lines 153-334).  A device
method invocation is modelled as the pair of the list of `send` commands
it issues and its outcome (`CallResult`).  The outcome of each transport
`send` is chosen by an oracle argument, since it comes from the network;
a method that raises in Python before reaching its `send` issues no
command and its outcome is forced to that exception. -/

/-- Outcome of a wrapped device call: it completed and returned the reply
list, or it raised an exception. -/
inductive CallResult where
  | ok (r : List PyVal)
  | raise (e : PyErr)
  deriving DecidableEq

namespace AirConditionM1

/-- ac_m1.py lines 190-200: the property list requested by `status`. -/
def properties : List String :=
  ["power", "mode", "st_temp_dec", "temp_dec", "vertical_swing",
   "speed_level", "ptc", "silence", "comfort"]

/-- The while loop of ac_m1.py lines 204-208: one `get_prop` send per
remaining property, each carrying exactly the one-element slice
`_props[:1]`, with the reply lists concatenated in order.  `reply p` is
the list the device returns for the request on property `p`. -/
def statusLoop (reply : String → List PyVal) :
    List String → List Cmd × List PyVal
  | [] => ([], [])
  | p :: ps =>
    let rest := statusLoop reply ps
    (⟨"get_prop", .strs [p]⟩ :: rest.1, reply p ++ rest.2)

/-- The commands sent by one `status()` call. -/
def statusTrace (reply : String → List PyVal) : List Cmd :=
  (statusLoop reply properties).1

/-- ac_m1.py lines 218-219: the status data is
`defaultdict(lambda: None, zip(properties, values))`; `zip` truncates at
the shorter list and a missing key reads as None. -/
def statusData (reply : String → List PyVal) : String → PyVal :=
  fun k =>
    match (List.zip properties (statusLoop reply properties).2).lookup k with
    | some v => v
    | Option.none => PyVal.none

/-- ac_m1.py lines 224-226: the device method named `on` in the source
(the word is a reserved token here) sends set_power on. -/
def power_on (reply : CallResult) : List Cmd × CallResult :=
  ([⟨"set_power", .str "on"⟩], reply)

/-- ac_m1.py lines 231-233: the device method named `off` in the source
sends set_power off. -/
def power_off (reply : CallResult) : List Cmd × CallResult :=
  ([⟨"set_power", .str "off"⟩], reply)

/-- ac_m1.py lines 240-243: `set_temperature` sends
`int(temperature * 10)` in a one-element list.  When the argument is not a
number (e.g. the None still stored in `_target_temperature`), the
multiplication raises TypeError before any send. -/
def set_temperature (temperature : PyVal) (reply : CallResult) :
    List Cmd × CallResult :=
  match temperature with
  | .num q => ([⟨"set_temperature", .ints [pyInt (q * 10)]⟩], reply)
  | _ => ([], .raise .typeError)

/-- ac_m1.py lines 245-252: `set_preset_mode` compares against
`PRESET_COMFORT` and `PRESET_SLEEP`.  Neither name is bound in the module
(see `ac_m1_globals`), so the very first comparison raises NameError and
no send is reached; the branches are nevertheless embedded in full,
guarded by resolution of the names they read ("comfort" and "sleep" are
the homeassistant values those constants would have had). -/
def set_preset_mode (presetmode : String) (reply : CallResult) :
    List Cmd × CallResult :=
  if "PRESET_COMFORT" ∈ ac_m1_globals then
    if presetmode = "comfort" then ([⟨"set_comfort", .str "on"⟩], reply)
    else if "PRESET_SLEEP" ∈ ac_m1_globals then
      if presetmode = "sleep" then ([⟨"set_silence", .str "on"⟩], reply)
      else
        ([⟨"set_comfort", .str "off"⟩, ⟨"set_silence", .str "off"⟩], reply)
    else ([], .raise .nameError)
  else ([], .raise .nameError)

/-- ac_m1.py lines 257-258. -/
def turn_aux_heat_on (reply : CallResult) : List Cmd × CallResult :=
  ([⟨"set_ptc", .str "on"⟩], reply)

/-- ac_m1.py lines 263-264. -/
def turn_aux_heat_off (reply : CallResult) : List Cmd × CallResult :=
  ([⟨"set_ptc", .str "off"⟩], reply)

/-- ac_m1.py lines 271-276: out of range raises; the raise statement
evaluates the name `AirConditionException`, which is defined in climate.py
but never imported into ac_m1.py (see `ac_m1_globals`), so what is
actually raised is NameError.  In range, exactly one set_spd_level send. -/
def set_wind_level (wind_level : Int) (reply : CallResult) :
    List Cmd × CallResult :=
  if wind_level < 0 ∨ wind_level > 7 then
    ([], .raise (if "AirConditionException" ∈ ac_m1_globals then
      .airConditionException else .nameError))
  else ([⟨"set_spd_level", .ints [wind_level]⟩], reply)

/-- ac_m1.py lines 285-290. -/
def set_swing (swing : Bool) (reply : CallResult) : List Cmd × CallResult :=
  if swing then ([⟨"set_vertical", .str "on"⟩], reply)
  else ([⟨"set_vertical", .str "off"⟩], reply)

/-- ac_m1.py lines 332-334: `set_mode` sends the enum member value. -/
def set_mode (mode : OperationMode) (reply : CallResult) :
    List Cmd × CallResult :=
  ([⟨"set_mode", .str mode.value⟩], reply)

end AirConditionM1

/-! The AirConditionStatus properties (ac_m1.py lines 71-127), as
functions of the status data mapping. -/

namespace AirConditionStatus

/-- ac_m1.py lines 87-90. -/
def power (data : String → PyVal) : PyVal := data "power"

/-- ac_m1.py lines 92-95. -/
def is_on (data : String → PyVal) : Bool := power data = .str "on"

/-- ac_m1.py lines 97-103: `OperationMode(self.data[mode])` under
`except TypeError: return None`.  A scalar non-member value raises
ValueError, which the except clause does not catch, so it escapes. -/
def mode (data : String → PyVal) : Except PyErr (Option OperationMode) :=
  match OperationMode.ofValue (data "mode") with
  | .ok m => .ok (some m)
  | .error .typeError => .ok Option.none
  | .error e => .error e

/-- Python true division by 10 of a status field; None (missing key) or a
non-numeric value raises TypeError. -/
def div10 (v : PyVal) : Except PyErr ℚ :=
  match v with
  | .num q => .ok (q / 10)
  | _ => .error .typeError

/-- ac_m1.py lines 105-108. -/
def target_temp (data : String → PyVal) : Except PyErr ℚ :=
  div10 (data "st_temp_dec")

/-- ac_m1.py lines 110-113. -/
def temperature (data : String → PyVal) : Except PyErr ℚ :=
  div10 (data "temp_dec")

/-- ac_m1.py lines 115-118. -/
def swing (data : String → PyVal) : PyVal := data "vertical_swing"

/-- ac_m1.py lines 120-123. -/
def wind_level (data : String → PyVal) : PyVal := data "speed_level"

/-- ac_m1.py lines 125-127. -/
def is_aux_heat (data : String → PyVal) : Bool := data "ptc" = .str "on"

end AirConditionStatus

/-! The climate entity XiaomiAirConditionM1 (ac_m1.py lines 337-604). -/

/-- The mutable fields of the entity (ac_m1.py lines 340-363).  The
constructor arguments name, host, token, unique_id, min_temp and max_temp
are configuration, never written after construction, and no claim reads
them, so they are not carried.  `_state_attrs` duplicates fields already
carried and is not modelled separately.  `_fan_mode` and
`_last_on_operation` are not assigned in the constructor at all (they are
first created by async_update or a setter); their pre-assignment reads
would raise AttributeError, and the initial state models them as None. -/
structure EntityState where
  available : Bool
  state : PyVal
  hvac_mode : PyVal
  target_temperature : PyVal
  current_temperature : PyVal
  fan_mode : PyVal
  swing_mode : PyVal
  aux_heat : PyVal
  last_on_operation : PyVal
  deriving DecidableEq

/-- The entity right after `__init__`. -/
def initState : EntityState :=
  ⟨false, .none, .none, .none, .none, .none, .none, .none, .none⟩

/-- Result of running one entity coroutine: the entity state afterwards
(mutations made before an uncaught exception persist), the commands sent
to the device, and the exception that escaped the coroutine, if any. -/
structure StepResult where
  state : EntityState
  trace : List Cmd
  err : Option PyErr
  deriving DecidableEq

/-- ac_m1.py lines 365-379, `_try_command`: runs the wrapped device call;
on completion returns whether the reply equals SUCCESS, leaving the state
untouched; on DeviceException (and subclasses) logs, sets `_available` to
False and returns False; any other exception escapes.  The commands the
call attempted are returned alongside. -/
def tryCommand (s : EntityState) (call : List Cmd × CallResult) :
    Except PyErr Bool × EntityState × List Cmd :=
  match call.2 with
  | .ok r => (.ok (decide (r = SUCCESS)), s, call.1)
  | .raise e =>
    if e.isDeviceException then (.ok false, { s with available := false }, call.1)
    else (.error e, s, call.1)

/-- ac_m1.py lines 598-604, the tail of async_set_hvac_mode once any
power-on has succeeded (or was skipped): `HVACMode(hvac_mode)` may raise
ValueError; then `_hvac_mode` and `_state` are assigned BEFORE the
set_mode command is attempted; `OperationMode[self._hvac_mode.title()]`
is evaluated at the call site.  Line 604 invokes the coroutine function
`self.async_update()` without awaiting it, which only builds a discarded
generator, so it has no effect and is not modelled. -/
def setModePhase (s : EntityState) (t : List Cmd) (hvac_mode : String)
    (reply2 : CallResult) : StepResult :=
  match HVACMode.ofValue hvac_mode with
  | .error e => ⟨s, t, some e⟩
  | .ok hm =>
    let s2 := { s with hvac_mode := .str hm.value, state := .bool true }
    match OperationMode.ofName (pyTitle hm.value) with
    | .error e => ⟨s2, t, some e⟩
    | .ok om =>
      match tryCommand s2 (AirConditionM1.set_mode om reply2) with
      | (.error e, s3, t2) => ⟨s3, t ++ t2, some e⟩
      | (.ok _, s3, t2) => ⟨s3, t ++ t2, Option.none⟩

/-- ac_m1.py lines 583-604, async_set_hvac_mode.  `reply1` answers the
first wrapped device call (off, or the power-on when taken), `reply2` the
set_mode call. -/
def async_set_hvac_mode (s : EntityState) (hvac_mode : String)
    (reply1 reply2 : CallResult) : StepResult :=
  if hvac_mode = HVAC_MODE_OFF then
    match tryCommand s (AirConditionM1.power_off reply1) with
    | (.error e, s1, t1) => ⟨s1, t1, some e⟩
    | (.ok result, s1, t1) =>
      if result then
        ⟨{ s1 with state := .bool false, hvac_mode := .str HVAC_MODE_OFF },
         t1, Option.none⟩
      else ⟨s1, t1, Option.none⟩
  else
    if s.hvac_mode = PyVal.str HVAC_MODE_OFF then
      match tryCommand s (AirConditionM1.power_on reply1) with
      | (.error e, s1, t1) => ⟨s1, t1, some e⟩
      | (.ok false, s1, t1) => ⟨s1, t1, Option.none⟩
      | (.ok true, s1, t1) => setModePhase s1 t1 hvac_mode reply2
    else
      setModePhase s [] hvac_mode reply2

/-- ac_m1.py lines 567-581, async_set_fan_mode.  SUPPORT_FLAGS does
contain SUPPORT_FAN_MODE, so the first guard never fires; in dry mode the
coroutine returns before touching `_fan_mode` or the device; otherwise
`FanSpeed[fan_mode.title()]` may raise KeyError, and the fan mode field
is assigned before the command is attempted. -/
def async_set_fan_mode (s : EntityState) (fan_mode : String)
    (reply : CallResult) : StepResult :=
  if SUPPORT_FLAGS &&& SUPPORT_FAN_MODE = 0 then ⟨s, [], Option.none⟩
  else if s.hvac_mode = PyVal.str HVAC_MODE_DRY then ⟨s, [], Option.none⟩
  else
    match FanSpeed.ofName (pyTitle fan_mode) with
    | .error e => ⟨s, [], some e⟩
    | .ok fs =>
      let s1 := { s with fan_mode := .str fs.name }
      match tryCommand s1 (AirConditionM1.set_wind_level fs.value reply) with
      | (.error e, s2, t) => ⟨s2, t, some e⟩
      | (.ok _, s2, t) => ⟨s2, t, Option.none⟩

/-- ac_m1.py lines 522-535, async_set_temperature.  `temperature` and
`hvac_arg` are the ATTR_TEMPERATURE and ATTR_HVAC_MODE entries of kwargs
(None when absent).  When `_hvac_mode` is off or fan_only the coroutine
returns at once.  Line 531 stores the enum member
`OperationMode(kwargs[ATTR_HVAC_MODE])` itself into `_hvac_mode` (raising
ValueError for values such as "cool" that are no OperationMode value),
and the device call sends the stored `_target_temperature`. -/
def async_set_temperature (s : EntityState) (temperature : Option ℚ)
    (hvac_arg : Option String) (reply : CallResult) : StepResult :=
  if s.hvac_mode = PyVal.str HVAC_MODE_OFF ∨
     s.hvac_mode = PyVal.str HVAC_MODE_FAN_ONLY then
    ⟨s, [], Option.none⟩
  else
    let s1 := match temperature with
      | some t => { s with target_temperature := PyVal.num t }
      | Option.none => s
    match (match hvac_arg with
      | some hv =>
        (OperationMode.ofValue (PyVal.str hv)).map
          (fun om : OperationMode => { s1 with hvac_mode := om.toPyVal })
      | Option.none => .ok s1) with
    | .error e => ⟨s1, [], some e⟩
    | .ok s2 =>
      match tryCommand s2
          (AirConditionM1.set_temperature s2.target_temperature reply) with
      | (.error e, s3, t) => ⟨s3, t, some e⟩
      | (.ok _, s3, t) => ⟨s3, t, Option.none⟩

/-- ac_m1.py lines 537-541, async_set_preset_mode: a plain _try_command
wrap of the device set_preset_mode. -/
def async_set_preset_mode (s : EntityState) (preset_mode : String)
    (reply : CallResult) : StepResult :=
  match tryCommand s (AirConditionM1.set_preset_mode preset_mode reply) with
  | (.error e, s1, t) => ⟨s1, t, some e⟩
  | (.ok _, s1, t) => ⟨s1, t, Option.none⟩

/-- ac_m1.py lines 514-516, the preset_modes property. -/
def preset_modes : List String := ["none", "silence", "comfort"]

/-- ac_m1.py lines 429-432, the supported_features property. -/
def supported_features : Nat := SUPPORT_FLAGS

/-- ac_m1.py lines 399-427, async_update.  `reply` is None when the
status call raises DeviceException (caught: availability drops, nothing
else changes); otherwise `reply` gives the device answer per requested
property and the status data is assembled by `statusData`.  The
assignments run in source order; an uncaught exception (for instance the
ValueError from `OperationMode(mode)` on a mode value outside the enum on
line 407, reached through `state.mode`) leaves the earlier assignments,
including `_available = True`, in place.  The `_state_attrs` dict update
of lines 419-424 copies values already carried by the fields and is not
modelled separately. -/
def async_update (s : EntityState) (reply : Option (String → List PyVal)) :
    StepResult :=
  match reply with
  | Option.none => ⟨{ s with available := false }, [], Option.none⟩
  | some rep =>
    let data := AirConditionM1.statusData rep
    let trace := AirConditionM1.statusTrace rep
    let s1 := { s with available := true }
    match AirConditionStatus.mode data with
    | .error e => ⟨s1, trace, some e⟩
    | .ok Option.none => ⟨s1, trace, some PyErr.attributeError⟩
    | .ok (some om) =>
      match HVACMode.ofName om.name with
      | .error e => ⟨s1, trace, some e⟩
      | .ok hm =>
        let s2 := { s1 with last_on_operation := PyVal.str hm.value }
        let s3 :=
          if AirConditionStatus.power data = PyVal.str "off" then
            { s2 with
              hvac_mode := PyVal.str HVAC_MODE_OFF
              state := PyVal.bool false }
          else
            { s2 with
              hvac_mode := s2.last_on_operation
              state := PyVal.bool true }
        match AirConditionStatus.target_temp data with
        | .error e => ⟨s3, trace, some e⟩
        | .ok tt =>
          let s4 := { s3 with target_temperature := PyVal.num tt }
          match AirConditionStatus.temperature data with
          | .error e => ⟨s4, trace, some e⟩
          | .ok ct =>
            let s5 := { s4 with current_temperature := PyVal.num ct }
            match FanSpeed.ofValue (AirConditionStatus.wind_level data) with
            | .error e => ⟨s5, trace, some e⟩
            | .ok fs =>
              let s6 :=
                { s5 with
                  fan_mode := PyVal.str fs.name
                  aux_heat :=
                    PyVal.bool (AirConditionStatus.is_aux_heat data) }
              match SwingMode.ofValue (AirConditionStatus.swing data) with
              | .error e => ⟨s6, trace, some e⟩
              | .ok sw =>
                ⟨{ s6 with swing_mode := PyVal.str sw.name }, trace,
                 Option.none⟩

/-! Concrete device replies used as test vectors, following the sample
report in the AirConditionStatus docstring (ac_m1.py lines 76-83). -/

/-- A device answering every get_prop with plausible values and operation
mode "arefaction" (dry). -/
def repDry : String → List PyVal := fun p =>
  if p = "power" then [.str "on"]
  else if p = "mode" then [.str "arefaction"]
  else if p = "st_temp_dec" then [.num 220]
  else if p = "temp_dec" then [.num 200]
  else if p = "vertical_swing" then [.str "on"]
  else if p = "speed_level" then [.num 0]
  else [.str "off"]

/-- The same device reporting operation mode "cooling". -/
def repCooling : String → List PyVal := fun p =>
  if p = "power" then [.str "on"]
  else if p = "mode" then [.str "cooling"]
  else if p = "st_temp_dec" then [.num 220]
  else if p = "temp_dec" then [.num 200]
  else if p = "vertical_swing" then [.str "on"]
  else if p = "speed_level" then [.num 0]
  else [.str "off"]

/-- The same device reporting the integer mode 2 that the status
docstring of ac_m1.py (line 174) lists as a reportable value. -/
def repModeTwo : String → List PyVal := fun p =>
  if p = "power" then [.str "on"]
  else if p = "mode" then [.num 2]
  else if p = "st_temp_dec" then [.num 220]
  else if p = "temp_dec" then [.num 200]
  else if p = "vertical_swing" then [.str "on"]
  else if p = "speed_level" then [.num 0]
  else [.str "off"]

/-- The device-to-host mode translation as the specification states it:
cooling to cool, arefaction to dry, wind to fan_only, heat to heat. -/
def specHvacValue : OperationMode → String
  | .Cool => HVAC_MODE_COOL
  | .Dry => HVAC_MODE_DRY
  | .Fan_Only => HVAC_MODE_FAN_ONLY
  | .Heat => HVAC_MODE_HEAT

/-! Helper lemmas shared by the claim theorems. -/

/-- The status while loop sends one get_prop per remaining property, in
order, whatever the device answers. -/
theorem statusLoop_trace (reply : String → List PyVal) (ps : List String) :
    (AirConditionM1.statusLoop reply ps).1 =
      ps.map (fun p => ⟨"get_prop", Param.strs [p]⟩) := by
  induction ps with
  | nil => rfl
  | cons p ps ih => simp [AirConditionM1.statusLoop, ih]

/-- Enum lookup of an OperationMode by its own value succeeds. -/
theorem OperationMode.ofValue_value (om : OperationMode) :
    OperationMode.ofValue (PyVal.str om.value) = .ok om := by
  cases om <;> rfl

/-- Python int() on a rational that is an integer gives that integer. -/
theorem pyInt_intCast (k : ℤ) : pyInt (k : ℚ) = k := by
  unfold pyInt
  split
  · exact Int.floor_intCast k
  · exact Int.ceil_intCast k

/-- Whatever happens after it, setModePhase only appends commands to the
trace it is handed. -/
theorem setModePhase_trace_prefix (s : EntityState) (t : List Cmd)
    (hv : String) (r2 : CallResult) :
    ∃ t2, (setModePhase s t hv r2).trace = t ++ t2 := by
  unfold setModePhase
  rcases h1 : HVACMode.ofValue hv with e | hm
  · exact ⟨[], by simp [h1]⟩
  · rcases h2 : OperationMode.ofName (pyTitle hm.value) with e | om
    · exact ⟨[], by simp [h1, h2]⟩
    · rcases h3 : tryCommand
          { s with hvac_mode := .str hm.value, state := .bool true }
          (AirConditionM1.set_mode om r2) with ⟨b, s3, t2⟩
      refine ⟨t2, ?_⟩
      rcases b with e | v <;> simp [h1, h2, h3]

/-! Claim theorems. -/

/-- Claim C1: when async_set_hvac_mode targets a mode other than off while
the stored hvac mode is off, the set_power-on command is the first command
sent (so it precedes any set_mode command), and when the power-on call
does not come back with SUCCESS, no set_mode command is sent and the hvac
mode field is unchanged. -/
theorem C1_power_on_before_set_mode (s : EntityState) (hvac_mode : String)
    (reply1 reply2 : CallResult)
    (hoff : s.hvac_mode = PyVal.str HVAC_MODE_OFF)
    (hm : hvac_mode = HVAC_MODE_COOL ∨ hvac_mode = HVAC_MODE_DRY ∨
          hvac_mode = HVAC_MODE_FAN_ONLY ∨ hvac_mode = HVAC_MODE_HEAT) :
    (async_set_hvac_mode s hvac_mode reply1 reply2).trace.head? =
      some ⟨"set_power", Param.str "on"⟩ ∧
    (reply1 = CallResult.ok SUCCESS ∨
      ((∀ c ∈ (async_set_hvac_mode s hvac_mode reply1 reply2).trace,
          c.method ≠ "set_mode") ∧
       (async_set_hvac_mode s hvac_mode reply1 reply2).state.hvac_mode =
          s.hvac_mode)) := by
  have hne : ¬ hvac_mode = HVAC_MODE_OFF := by
    rcases hm with rfl | rfl | rfl | rfl <;> decide
  unfold async_set_hvac_mode
  rw [if_neg hne, if_pos hoff]
  cases reply1 with
  | ok r =>
    by_cases hr : r = SUCCESS
    · subst hr
      refine ⟨?_, Or.inl rfl⟩
      obtain ⟨t2, ht⟩ := setModePhase_trace_prefix s
        [⟨"set_power", Param.str "on"⟩] hvac_mode reply2
      simp [tryCommand, AirConditionM1.power_on, ht]
    · refine ⟨?_, Or.inr ⟨?_, ?_⟩⟩ <;>
        simp [tryCommand, AirConditionM1.power_on, hr, Cmd.method]
  | raise e =>
    cases hie : PyErr.isDeviceException e <;>
      refine ⟨?_, Or.inr ⟨?_, ?_⟩⟩ <;>
        simp [tryCommand, AirConditionM1.power_on, hie, Cmd.method]

/-- Witness for C1: a concrete entity that is off, switched to cool, with
the device acknowledging both calls. -/
theorem C1_witness :
    ({ initState with hvac_mode := PyVal.str HVAC_MODE_OFF } :
        EntityState).hvac_mode = PyVal.str HVAC_MODE_OFF ∧
    (HVAC_MODE_COOL = HVAC_MODE_COOL ∨ HVAC_MODE_COOL = HVAC_MODE_DRY ∨
     HVAC_MODE_COOL = HVAC_MODE_FAN_ONLY ∨
     HVAC_MODE_COOL = HVAC_MODE_HEAT) ∧
    ((async_set_hvac_mode
        { initState with hvac_mode := PyVal.str HVAC_MODE_OFF }
        HVAC_MODE_COOL (CallResult.ok SUCCESS)
        (CallResult.ok SUCCESS)).trace.head? =
      some ⟨"set_power", Param.str "on"⟩ ∧
    (CallResult.ok SUCCESS = CallResult.ok SUCCESS ∨
      ((∀ c ∈ (async_set_hvac_mode
          { initState with hvac_mode := PyVal.str HVAC_MODE_OFF }
          HVAC_MODE_COOL (CallResult.ok SUCCESS)
          (CallResult.ok SUCCESS)).trace, c.method ≠ "set_mode") ∧
       (async_set_hvac_mode
          { initState with hvac_mode := PyVal.str HVAC_MODE_OFF }
          HVAC_MODE_COOL (CallResult.ok SUCCESS)
          (CallResult.ok SUCCESS)).state.hvac_mode =
        ({ initState with hvac_mode := PyVal.str HVAC_MODE_OFF } :
          EntityState).hvac_mode))) :=
  ⟨rfl, Or.inl rfl,
   C1_power_on_before_set_mode _ _ _ _ rfl (Or.inl rfl)⟩

/-- Claim C2: every call to async_set_fan_mode while the stored hvac mode
is dry returns at once: no device command is sent and the entity state,
its fan mode field included, is unchanged. -/
theorem C2_fan_mode_refused_in_dry (s : EntityState) (fan_mode : String)
    (reply : CallResult) (h : s.hvac_mode = PyVal.str HVAC_MODE_DRY) :
    async_set_fan_mode s fan_mode reply = ⟨s, [], Option.none⟩ := by
  unfold async_set_fan_mode
  rw [if_neg (by decide), if_pos h]

/-- Witness for C2 at a concrete entity state in dry mode. -/
theorem C2_witness :
    ({ initState with hvac_mode := PyVal.str HVAC_MODE_DRY } :
        EntityState).hvac_mode = PyVal.str HVAC_MODE_DRY ∧
    async_set_fan_mode { initState with hvac_mode := PyVal.str HVAC_MODE_DRY }
        "auto" (CallResult.ok SUCCESS) =
      ⟨{ initState with hvac_mode := PyVal.str HVAC_MODE_DRY }, [],
       Option.none⟩ :=
  ⟨rfl, C2_fan_mode_refused_in_dry _ "auto" (CallResult.ok SUCCESS) rfl⟩

/-- Claim C9: every call to async_set_temperature while the stored hvac
mode is off or fan_only returns at once: no device command is sent and the
entity state, its target temperature and hvac mode fields included, is
unchanged. -/
theorem C9_set_temperature_noop_off_fan (s : EntityState)
    (temperature : Option ℚ) (hvac_arg : Option String) (reply : CallResult)
    (h : s.hvac_mode = PyVal.str HVAC_MODE_OFF ∨
         s.hvac_mode = PyVal.str HVAC_MODE_FAN_ONLY) :
    async_set_temperature s temperature hvac_arg reply =
      ⟨s, [], Option.none⟩ := by
  unfold async_set_temperature
  rw [if_pos h]

/-- Witness for C9 at a concrete entity state that is off. -/
theorem C9_witness :
    (({ initState with hvac_mode := PyVal.str HVAC_MODE_OFF } :
        EntityState).hvac_mode = PyVal.str HVAC_MODE_OFF ∨
     ({ initState with hvac_mode := PyVal.str HVAC_MODE_OFF } :
        EntityState).hvac_mode = PyVal.str HVAC_MODE_FAN_ONLY) ∧
    async_set_temperature
        { initState with hvac_mode := PyVal.str HVAC_MODE_OFF }
        (some 25) Option.none (CallResult.ok SUCCESS) =
      ⟨{ initState with hvac_mode := PyVal.str HVAC_MODE_OFF }, [],
       Option.none⟩ :=
  ⟨Or.inl rfl,
   C9_set_temperature_noop_off_fan _ (some 25) Option.none
     (CallResult.ok SUCCESS) (Or.inl rfl)⟩

/-- Claim C10: _try_command returns True exactly when the wrapped call
completes with the list SUCCESS, leaving the entity state untouched on
every completed call; a DeviceException is swallowed, drops the available
flag and yields False. -/
theorem C10_try_command_spec :
    (∀ (s : EntityState) (cmds : List Cmd) (r : List PyVal),
      tryCommand s (cmds, CallResult.ok r) =
        (.ok (decide (r = SUCCESS)), s, cmds)) ∧
    (∀ (s : EntityState) (cmds : List Cmd),
      tryCommand s (cmds, CallResult.raise PyErr.deviceException) =
        (.ok false, { s with available := false }, cmds)) :=
  ⟨fun _ _ _ => rfl, fun _ _ => rfl⟩

/-- Claim C8 (code evaluation): `AirConditionException` is not a module
name of ac_m1.py, so the out-of-range branch of set_wind_level raises
NameError rather than AirConditionException, sending nothing; every
in-range wind level sends exactly one set_spd_level command carrying it. -/
theorem C8_wind_level_bug :
    "AirConditionException" ∉ ac_m1_globals ∧
    (∀ r, AirConditionM1.set_wind_level 8 r =
      ([], CallResult.raise PyErr.nameError)) ∧
    (∀ (w : Int) (r : CallResult), AirConditionM1.set_wind_level w r =
      (if w < 0 ∨ w > 7 then ([], CallResult.raise PyErr.nameError)
       else ([⟨"set_spd_level", Param.ints [w]⟩], r))) := by
  refine ⟨by decide, fun r => rfl, fun w r => ?_⟩
  unfold AirConditionM1.set_wind_level
  rw [if_neg (by decide : ¬ "AirConditionException" ∈ ac_m1_globals)]

/-- Claim C6 counterexample: the supported-features bitmask does not
advertise preset support, and the comfort preset sends no set_comfort
command; set_preset_mode raises NameError instead. -/
theorem C6_counterexample :
    supported_features &&& SUPPORT_PRESET_MODE = 0 ∧
    AirConditionM1.set_preset_mode "comfort" (CallResult.ok SUCCESS) =
      ([], CallResult.raise PyErr.nameError) := by
  constructor
  · decide
  · decide

/-- Claim C6 as amended: preset_modes lists none, silence and comfort,
but SUPPORT_FLAGS omits SUPPORT_PRESET_MODE (the term is commented out),
and no preset call ever reaches the device: set_preset_mode reads the
unbound names PRESET_COMFORT and PRESET_SLEEP, so every call raises
NameError, which _try_command propagates with the state unchanged. -/
theorem C6_presets_never_advertised_nor_sent :
    preset_modes = ["none", "silence", "comfort"] ∧
    supported_features &&& SUPPORT_PRESET_MODE = 0 ∧
    (∀ (p : String) (r : CallResult), AirConditionM1.set_preset_mode p r =
      ([], CallResult.raise PyErr.nameError)) ∧
    (∀ (s : EntityState) (p : String) (r : CallResult),
      async_set_preset_mode s p r = ⟨s, [], some PyErr.nameError⟩) := by
  have hset : ∀ (p : String) (r : CallResult),
      AirConditionM1.set_preset_mode p r =
        ([], CallResult.raise PyErr.nameError) := by
    intro p r
    unfold AirConditionM1.set_preset_mode
    rw [if_neg (by decide : ¬ "PRESET_COMFORT" ∈ ac_m1_globals)]
  refine ⟨rfl, by decide, hset, fun s p r => ?_⟩
  unfold async_set_preset_mode
  rw [hset p r]
  rfl

/-- Claim C5: temperature conversion round-trips exactly.  For t = k/10
(an integer multiple of 0.1, temperatures modelled as exact rationals),
set_temperature sends the integer k decidegrees, and a status report
carrying k in st_temp_dec (resp. temp_dec) reads back as the target
(resp. current) temperature t. -/
theorem C5_temperature_roundtrip (k : ℤ) (r : CallResult)
    (data : String → PyVal)
    (h1 : data "st_temp_dec" = PyVal.num (k : ℚ))
    (h2 : data "temp_dec" = PyVal.num (k : ℚ)) :
    AirConditionM1.set_temperature (PyVal.num ((k : ℚ) / 10)) r =
      ([⟨"set_temperature", Param.ints [k]⟩], r) ∧
    AirConditionStatus.target_temp data = .ok ((k : ℚ) / 10) ∧
    AirConditionStatus.temperature data = .ok ((k : ℚ) / 10) := by
  refine ⟨?_, ?_, ?_⟩
  · have hk : ((k : ℚ) / 10) * 10 = (k : ℚ) :=
      div_mul_cancel₀ _ (by norm_num)
    simp [AirConditionM1.set_temperature, hk, pyInt_intCast]
  · simp [AirConditionStatus.target_temp, AirConditionStatus.div10, h1]
  · simp [AirConditionStatus.temperature, AirConditionStatus.div10, h2]

/-- Witness for C5 at 22.3 degrees (223 decidegrees). -/
theorem C5_witness :
    ((fun _ : String => PyVal.num ((223 : ℤ) : ℚ)) "st_temp_dec" =
      PyVal.num ((223 : ℤ) : ℚ)) ∧
    ((fun _ : String => PyVal.num ((223 : ℤ) : ℚ)) "temp_dec" =
      PyVal.num ((223 : ℤ) : ℚ)) ∧
    (AirConditionM1.set_temperature
        (PyVal.num (((223 : ℤ) : ℚ) / 10)) (CallResult.ok SUCCESS) =
      ([⟨"set_temperature", Param.ints [(223 : ℤ)]⟩],
       CallResult.ok SUCCESS) ∧
     AirConditionStatus.target_temp
        (fun _ : String => PyVal.num ((223 : ℤ) : ℚ)) =
      .ok (((223 : ℤ) : ℚ) / 10) ∧
     AirConditionStatus.temperature
        (fun _ : String => PyVal.num ((223 : ℤ) : ℚ)) =
      .ok (((223 : ℤ) : ℚ) / 10)) :=
  ⟨rfl, rfl,
   C5_temperature_roundtrip 223 (CallResult.ok SUCCESS) _ rfl rfl⟩

/-- Claim C7 counterexample: two runs of async_set_fan_mode with the same
argument and the same device behave differently, depending only on what
an earlier async_update stored into the entity, so a command handler does
depend on device state retained between operations. -/
theorem C7_counterexample :
    (async_update initState (some repDry)).state.hvac_mode =
      PyVal.str HVAC_MODE_DRY ∧
    (async_update initState (some repCooling)).state.hvac_mode =
      PyVal.str HVAC_MODE_COOL ∧
    (async_set_fan_mode (async_update initState (some repDry)).state
        "auto" (CallResult.ok SUCCESS)).trace = [] ∧
    (async_set_fan_mode (async_update initState (some repCooling)).state
        "auto" (CallResult.ok SUCCESS)).trace =
      [⟨"set_spd_level", Param.ints [5]⟩] := by
  decide

/-- Claim C7 as amended: the entity does retain device state between
operations.  async_update stores the polled values into the entity
fields, async_set_fan_mode consults the stored hvac mode (suppressing the
command after a dry poll but not after a cooling poll), and
async_set_temperature with no temperature argument sends the stored
target temperature from the last poll. -/
theorem C7_entity_caches_device_state :
    (async_update initState (some repCooling)).state =
      { available := true, state := .bool true,
        hvac_mode := .str HVAC_MODE_COOL,
        target_temperature := .num (220 / 10),
        current_temperature := .num (200 / 10),
        fan_mode := .str "Level_1", swing_mode := .str "On",
        aux_heat := .bool false,
        last_on_operation := .str HVAC_MODE_COOL } ∧
    ((220 : ℚ) / 10 = 22 ∧ (200 : ℚ) / 10 = 20) ∧
    (async_set_fan_mode (async_update initState (some repDry)).state
        "auto" (CallResult.ok SUCCESS)).trace = [] ∧
    (async_set_fan_mode (async_update initState (some repCooling)).state
        "auto" (CallResult.ok SUCCESS)).trace =
      [⟨"set_spd_level", Param.ints [5]⟩] ∧
    (async_set_temperature (async_update initState (some repCooling)).state
        Option.none Option.none (CallResult.ok SUCCESS)).trace =
      [⟨"set_temperature", Param.ints [220]⟩] := by
  have hS : (async_update initState (some repCooling)).state =
      { available := true, state := .bool true,
        hvac_mode := .str HVAC_MODE_COOL,
        target_temperature := .num (220 / 10),
        current_temperature := .num (200 / 10),
        fan_mode := .str "Level_1", swing_mode := .str "On",
        aux_heat := .bool false,
        last_on_operation := .str HVAC_MODE_COOL } := rfl
  refine ⟨hS, ⟨by norm_num, by norm_num⟩, by decide, by decide, ?_⟩
  rw [hS]
  have ht : pyInt (220 / 10 * 10 : ℚ) = 220 := by
    norm_num [pyInt]
  have ht2 : pyInt (220 : ℚ) = 220 := by
    norm_num [pyInt]
  simp [async_set_temperature, AirConditionM1.set_temperature, tryCommand,
    HVAC_MODE_OFF, HVAC_MODE_FAN_ONLY, HVAC_MODE_COOL, ht, ht2]

/-- Claim C4 counterexample: when the device reports the integer mode 2,
a value the status docstring of the source lists as reportable,
async_update does not set the hvac mode from the device state at all: the
uncaught ValueError from OperationMode(2) escapes and the hvac mode field
keeps its previous value (while available was already flipped to True). -/
theorem C4_counterexample :
    (async_update { initState with hvac_mode := PyVal.str HVAC_MODE_HEAT }
        (some repModeTwo)).err = some PyErr.valueError ∧
    (async_update { initState with hvac_mode := PyVal.str HVAC_MODE_HEAT }
        (some repModeTwo)).state.hvac_mode = PyVal.str HVAC_MODE_HEAT ∧
    (async_update { initState with hvac_mode := PyVal.str HVAC_MODE_HEAT }
        (some repModeTwo)).state.available = true := by
  decide

/-- Claim C4 as amended: whenever the reported mode value is one of the
four OperationMode values (cooling, arefaction, wind, heat), async_update
sets the hvac mode field to off when the reported power is "off" and
otherwise to the corresponding host mode (cooling to cool, arefaction to
dry, wind to fan_only, heat to heat), with the state flag False resp.
True; for any other reported mode value an uncaught exception escapes and
the hvac mode field is left unchanged (see the counterexample). -/
theorem C4_update_maps_mode (s : EntityState) (rep : String → List PyVal)
    (om : OperationMode)
    (h : AirConditionM1.statusData rep "mode" = PyVal.str om.value) :
    (async_update s (some rep)).state.hvac_mode =
      (if AirConditionM1.statusData rep "power" = PyVal.str "off"
       then PyVal.str HVAC_MODE_OFF
       else PyVal.str (specHvacValue om)) ∧
    (async_update s (some rep)).state.state =
      (if AirConditionM1.statusData rep "power" = PyVal.str "off"
       then PyVal.bool false else PyVal.bool true) := by
  have hmode : AirConditionStatus.mode (AirConditionM1.statusData rep) =
      .ok (some om) := by
    unfold AirConditionStatus.mode
    rw [h, OperationMode.ofValue_value]
  have hname : ∀ hm : HVACMode, HVACMode.ofName om.name = .ok hm →
      hm.value = specHvacValue om := by
    cases om <;> (intro hm hhm; cases hm <;> simp_all [HVACMode.ofName,
      OperationMode.name, specHvacValue, HVACMode.value])
  rcases hn : HVACMode.ofName om.name with e | hm
  · exact absurd hn (by cases om <;> simp [HVACMode.ofName,
      OperationMode.name])
  · have hv := hname hm hn
    constructor <;>
    · simp only [async_update, hmode, hn, hv, AirConditionStatus.power]
      repeat' split
      all_goals simp_all

/-- Witness for C4 at a concrete cooling, powered-on device report. -/
theorem C4_witness :
    AirConditionM1.statusData repCooling "mode" =
      PyVal.str (OperationMode.value OperationMode.Cool) ∧
    ((async_update initState (some repCooling)).state.hvac_mode =
      (if AirConditionM1.statusData repCooling "power" = PyVal.str "off"
       then PyVal.str HVAC_MODE_OFF
       else PyVal.str (specHvacValue OperationMode.Cool)) ∧
     (async_update initState (some repCooling)).state.state =
      (if AirConditionM1.statusData repCooling "power" = PyVal.str "off"
       then PyVal.bool false else PyVal.bool true)) :=
  ⟨by decide, C4_update_maps_mode initState repCooling OperationMode.Cool
    (by decide)⟩

/-- Claim C3 counterexample: one status refresh does not send exactly one
get_prop request; it sends nine. -/
theorem C3_counterexample :
    (AirConditionM1.statusTrace repCooling).countP
        (fun c => c.method == "get_prop") = 9 ∧
    ¬ (AirConditionM1.statusTrace repCooling).countP
        (fun c => c.method == "get_prop") = 1 := by
  constructor
  · decide
  · decide

/-- Claim C3 as amended: a status refresh sends one get_prop request per
requested property, nine in all, each carrying a single property name
(the device limits a request to one property); the write operations of
the device class each send exactly one command. -/
theorem C3_one_request_per_property :
    (∀ reply, AirConditionM1.statusTrace reply =
      AirConditionM1.properties.map (fun p => ⟨"get_prop", Param.strs [p]⟩)) ∧
    AirConditionM1.properties.length = 9 ∧
    (∀ r, (AirConditionM1.power_on r).1.length = 1) ∧
    (∀ r, (AirConditionM1.power_off r).1.length = 1) ∧
    (∀ m r, (AirConditionM1.set_mode m r).1.length = 1) ∧
    (∀ b r, (AirConditionM1.set_swing b r).1.length = 1) ∧
    (∀ (q : ℚ) r, (AirConditionM1.set_temperature (PyVal.num q) r).1.length = 1) := by
  refine ⟨fun reply => statusLoop_trace reply _, rfl, fun _ => rfl,
    fun _ => rfl, fun _ _ => rfl, fun b r => ?_, fun _ _ => rfl⟩
  unfold AirConditionM1.set_swing
  cases b <;> rfl

end MiAC
